import Mathlib

/-!
# Shallow embedding of the climate-buddy backend

This file embeds the request/response and fallback logic of the backend
(`src/routes/chatbot.py`, `src/routes/weather.py`, `src/routes/dashboard.py`,
`src/visualization/piechart.py`) into Lean and proves the spec's testable
properties against it.

Modelling conventions:
* Python exceptions are modelled by the `PyExn` type; a function that can
  raise returns `Except PyExn α`.  A bare `except requests.RequestException`
  clause catches only `PyExn.requestExn`; a bare `except Exception` clause
  catches every `PyExn`.
* Outbound HTTP calls are modelled by a `Provider` record holding the
  outcome of each distinct provider endpoint (`.error msg` models a
  `requests.RequestException`, `.ok payload` a parsed 2xx JSON body).
* `random.randint` / `random.uniform` are modelled by draws from an
  abstract entropy stream `Rng := ℕ → ℕ`; each call site reads the stream
  at a fixed distinct index.  The modelled draws always land in the
  requested interval, as the library calls do.
* Floats are modelled as exact rationals; Python `round(x, 1)` is modelled
  by exact round-half-to-even at one decimal (`pyRound1`).
* Numeric fields that the routes render into strings with unit suffixes
  (for example `f"{temp}°C"`) are kept as their underlying numeric values:
  no claim depends on the decimal rendering of a float.
-/

/-- Python exception model: `httpExn` is `fastapi.HTTPException`,
`requestExn` is `requests.RequestException`, `keyError`/`indexError` are the
builtin lookup errors. -/
inductive PyExn : Type
| httpExn (status : Nat) (detail : String)
| requestExn (msg : String)
| keyError (msg : String)
| indexError (msg : String)
deriving DecidableEq, Repr

/-- `str(e)` as used when an exception is interpolated into a detail
string. -/
def PyExn.str : PyExn → String
| .httpExn _ d => d
| .requestExn m => m
| .keyError m => m
| .indexError m => m

/-- Entropy stream standing for the global `random` module state: the call
site with index `i` consumes draw `rng i`. -/
def Rng : Type := ℕ → ℕ

/-- Model of `random.randint(lo, hi)` (inclusive bounds) driven by one raw
draw: the draw is reduced into the requested interval. -/
def pyRandint (lo hi : ℤ) (draw : ℕ) : ℤ :=
  lo + (draw : ℤ) % (hi - lo + 1)

/-- Model of `random.uniform(lo, hi)` driven by one raw draw: a rational in
`[lo, hi]` (the draw picks one of 1001 evenly spaced points). -/
def pyUniform (lo hi : ℚ) (draw : ℕ) : ℚ :=
  lo + (hi - lo) * ((draw % 1001 : ℕ) : ℚ) / 1000

/-- Round-half-to-even to the nearest integer, the rounding Python's
builtin `round` uses. -/
def roundHalfEven (x : ℚ) : ℤ :=
  let f := ⌊x⌋
  let frac := x - (f : ℚ)
  if frac < 1/2 then f
  else if 1/2 < frac then f + 1
  else if f % 2 = 0 then f else f + 1

/-- Python `round(x, 1)`. -/
def pyRound1 (x : ℚ) : ℚ := (roundHalfEven (x * 10) : ℚ) / 10

/-- Python slice `xs[:n]`: for non-negative `n` the first `n` elements, for
negative `n` all but the last `|n|` elements. -/
def pySliceTo (n : ℤ) (xs : List α) : List α :=
  if 0 ≤ n then xs.take n.toNat else xs.take (xs.length - n.natAbs)

/-- Substring test on character lists: Python `needle in hay`. -/
def containsSubList (needle : List Char) : List Char → Bool
| [] => needle.isPrefixOf []
| c :: t => needle.isPrefixOf (c :: t) || containsSubList needle t

/-- Python `needle in hay` on strings. -/
def strContains (hay needle : String) : Bool :=
  containsSubList needle.data hay.data

/-- Python `str.lower()` (ASCII case mapping; every character the
repository's data and claims exercise is ASCII-cased). -/
def pyLower (s : String) : String := ⟨s.data.map Char.toLower⟩

/-- Python `str.strip(chars)` generalised over a character predicate. -/
def pyStripWith (p : Char → Bool) (s : String) : String :=
  ⟨((s.data.dropWhile p).reverse.dropWhile p).reverse⟩

/-- Python `str.strip()` (whitespace). -/
def pyStrip (s : String) : String := pyStripWith Char.isWhitespace s

/-- Python `str.strip('"')`. -/
def pyStripDq (s : String) : String := pyStripWith (· = Char.ofNat 34) s

/-- Python `str.strip("'")`. -/
def pyStripSq (s : String) : String := pyStripWith (· = Char.ofNat 39) s

/-- Python `str.title()` restricted to alphabetic casing: the first letter
of each alphabetic run is uppercased, the rest lowercased. -/
def pyTitleGo : Bool → List Char → List Char
| _, [] => []
| prevAlpha, c :: t =>
  (if c.isAlpha then (if prevAlpha then c.toLower else c.toUpper) else c)
    :: pyTitleGo c.isAlpha t

/-- Python `str.title()`. -/
def pyTitle (s : String) : String := ⟨pyTitleGo false s.data⟩

/-- `xs[0]`, raising `IndexError` on an empty list. -/
def pyHead : List α → Except PyExn α
| [] => .error (.indexError "list index out of range")
| a :: _ => .ok a

/-- `list(set(xs))` followed by nothing: CPython's set iteration order is
unspecified; the spec declares the order implementation-defined, so the
model fixes it to first-occurrence order. -/
def pySetList [DecidableEq α] (xs : List α) : List α := xs.dedup

theorem exceptBind_ok {ε α β : Type} (a : α) (f : α → Except ε β) :
    (Except.ok a : Except ε α) >>= f = f a := rfl

theorem exceptBind_err {ε α β : Type} (e : ε) (f : α → Except ε β) :
    (Except.error e : Except ε α) >>= f = .error e := rfl

theorem pyRandint_mem (lo hi : ℤ) (d : ℕ) (h : lo ≤ hi) :
    lo ≤ pyRandint lo hi d ∧ pyRandint lo hi d ≤ hi := by
  unfold pyRandint
  have hpos : (0:ℤ) < hi - lo + 1 := by omega
  have h1 : 0 ≤ (d : ℤ) % (hi - lo + 1) := Int.emod_nonneg _ (by omega)
  have h2 : (d : ℤ) % (hi - lo + 1) < hi - lo + 1 := Int.emod_lt_of_pos _ hpos
  omega

namespace Chatbot

/-! ## `src/routes/chatbot.py` -/

/-- Request body of `POST /api/chat/` (`ChatRequest` in the source; the
spec's ChatTurn).  The optional fields carry their Python defaults. -/
structure ChatRequest where
  user_message : String
  age_group : String := "general"
  knowledge_level : String := "beginner"
  language : String := "english"
  subject : String := "climate_science"
  location : Option String := none
deriving DecidableEq, Repr

/-- Response body (`ChatResponse` in the source; the spec's ChatReply). -/
structure ChatResponse where
  reply : String
  suggested_topics : List String := []
deriving DecidableEq, Repr

/-- State of the module-level OpenAI client together with the outcome the
backend would produce for the request at hand: `clientNone` models the
constructor having failed (`client = None`); `ready (.error e)` models an
initialized client whose `chat.completions.create` call raises; `ready
(.ok reply)` models a successful completion. -/
inductive LLMClient : Type
| clientNone
| ready (result : Except String String)

/-- The keyword→topics table of `generate_suggested_topics`. -/
def topic_keywords : List (String × List String) :=
  [("greenhouse", ["Carbon Footprint", "Renewable Energy"]),
   ("carbon", ["Greenhouse Effect", "Carbon Footprint"]),
   ("energy", ["Renewable Energy", "Sustainable Living"]),
   ("ocean", ["Ocean Acidification", "Biodiversity Loss"]),
   ("weather", ["Weather vs Climate", "Climate Adaptation"]),
   ("tree", ["Deforestation", "Biodiversity Loss"]),
   ("sustainable", ["Sustainable Living", "Climate Solutions"]),
   ("biodiversity", ["Biodiversity Loss", "Deforestation"]),
   ("adaptation", ["Climate Adaptation", "Climate Solutions"])]

/-- `generate_suggested_topics` from `src/routes/chatbot.py`: lowercase the
message, union the topic lists of every keyword occurring in it (in table
order, as the Python `for` loop does), deduplicate, truncate to 3, and
fall back to the fixed default triple when nothing matched. -/
def generate_suggested_topics (user_message : String) : List String :=
  let message_lower := pyLower user_message
  let suggestions :=
    (topic_keywords.filter (fun kv => strContains message_lower kv.1)).flatMap (·.2)
  let suggestions := (pySetList suggestions).take 3
  if suggestions.isEmpty then
    ["Greenhouse Effect", "Renewable Energy", "Sustainable Living"]
  else suggestions

/-- The canned fallback reply text used when the client is `None` (the
body interpolates the user's message; the exact prose is immaterial). -/
def fallbackReply (user_message : String) : String :=
  "Hello! I am ClimateBuddy. You asked: " ++ user_message ++
  " - technical difficulties, please try again."

/-- `chat_with_tutor` (`POST /api/chat/`): with an uninitialized client it
returns the canned fallback plus a fixed 3-topic list; with a working
backend it returns the completion plus keyword-derived suggestions; when
the backend call raises, the blanket `except Exception` turns the failure
into `HTTPException(500, ...)`. -/
def chat_with_tutor (client : LLMClient) (request : ChatRequest) :
    Except PyExn ChatResponse :=
  match client with
  | .clientNone =>
    .ok { reply := fallbackReply request.user_message,
          suggested_topics :=
            ["Greenhouse Effect", "Carbon Footprint", "Climate vs Weather"] }
  | .ready (.ok assistant_reply) =>
    .ok { reply := assistant_reply,
          suggested_topics := generate_suggested_topics request.user_message }
  | .ready (.error e) =>
    .error (.httpExn 500 ("Error processing chat request: " ++ e))

end Chatbot

namespace Dashboard

/-! ## `src/routes/dashboard.py`: AQI category tables -/

/-- `get_aqi_category` from `src/routes/dashboard.py`. -/
def get_aqi_category (aqi : ℤ) : String :=
  if aqi ≤ 50 then "Good"
  else if aqi ≤ 100 then "Moderate"
  else if aqi ≤ 150 then "Unhealthy for Sensitive Groups"
  else if aqi ≤ 200 then "Unhealthy"
  else if aqi ≤ 300 then "Very Unhealthy"
  else "Hazardous"

/-- `get_aqi_health_impact` from `src/routes/dashboard.py` (the strings are
abbreviated; the claims only use the band structure). -/
def get_aqi_health_impact (aqi : ℤ) : String :=
  if aqi ≤ 50 then "Air quality is satisfactory, little or no risk."
  else if aqi ≤ 100 then "Acceptable; risk for unusually sensitive people."
  else if aqi ≤ 150 then "Sensitive groups may experience health effects."
  else if aqi ≤ 200 then "Some of the general public may experience health effects."
  else if aqi ≤ 300 then "Health alert: risk increased for everyone."
  else "Health warning of emergency conditions."

/-- The spec's own description of the category function, written from the
spec's words (6 fixed threshold bands) for the refinement comparison. -/
def specAqiCategory (v : ℤ) : String :=
  if v ≤ 50 then "Good"
  else if v ≤ 100 then "Moderate"
  else if v ≤ 150 then "Unhealthy for Sensitive Groups"
  else if v ≤ 200 then "Unhealthy"
  else if v ≤ 300 then "Very Unhealthy"
  else "Hazardous"

/-- Severity rank of a category name, for stating monotonicity (0 = least
severe). -/
def aqiSeverityRank (c : String) : ℕ :=
  if c = "Good" then 0
  else if c = "Moderate" then 1
  else if c = "Unhealthy for Sensitive Groups" then 2
  else if c = "Unhealthy" then 3
  else if c = "Very Unhealthy" then 4
  else 5

/-! ## Provider payload model (parsed OpenWeatherMap JSON bodies) -/

/-- One entry of a payload's `weather` array. -/
structure Wx where
  main : String
  description : String
  icon : String
deriving DecidableEq, Repr

/-- The `main` object of a current-weather or forecast payload. -/
structure WMain where
  temp : ℚ
  feels_like : ℚ
  humidity : ℚ
  pressure : ℚ
deriving DecidableEq, Repr

/-- The `wind` object; `deg` is optional (`wind.get('deg', 0)`). -/
structure Wind where
  speed : ℚ
  deg : Option ℚ := none
deriving DecidableEq, Repr

/-- The `coord` object. -/
structure Coord where
  lat : ℚ
  lon : ℚ
deriving DecidableEq, Repr

/-- The `sys` object. -/
structure Sys where
  country : String
deriving DecidableEq, Repr

/-- Parsed body of `GET /data/2.5/weather`. -/
structure WeatherPayload where
  coord : Coord
  name : String
  sys : Sys
  main : WMain
  wind : Wind
  visibility : Option ℚ := none
  weather : List Wx
  uvi : Option ℚ := none
deriving DecidableEq, Repr

/-- One 3-hour slot of a forecast payload's `list`. -/
structure FItem where
  dt_txt : String
  main : WMain
  weather : List Wx
  wind : Wind
deriving DecidableEq, Repr

/-- The `city` object of a forecast payload. -/
structure FCity where
  name : String
  country : String
deriving DecidableEq, Repr

/-- Parsed body of `GET /data/2.5/forecast`. -/
structure ForecastPayload where
  city : FCity
  list : List FItem
deriving DecidableEq, Repr

/-- The `components` object of an air-pollution payload (μg/m³). -/
structure Components where
  co : ℚ
  no : ℚ
  no2 : ℚ
  o3 : ℚ
  so2 : ℚ
  pm2_5 : ℚ
  pm10 : ℚ
  nh3 : ℚ
deriving DecidableEq, Repr

/-- One entry of an air-pollution payload's `list`. -/
structure AirEntry where
  aqi : ℤ
  components : Components
deriving DecidableEq, Repr

/-- Parsed body of `GET /data/2.5/air_pollution`. -/
structure AirPayload where
  list : List AirEntry
deriving DecidableEq, Repr

/-- Outcome of each provider endpoint for the request under consideration:
`.error msg` models `requests.RequestException`, `.ok` a parsed 2xx body.
The source builds each request URL from the city (and, for air pollution,
the coordinates of the current-weather payload); neither the current
weather URL nor the forecast URL carries the `days` parameter, so the
responses are functions of the city alone and are fixed here. -/
structure Provider where
  weather : Except String WeatherPayload
  airPollution : Except String AirPayload
  forecast : Except String ForecastPayload

/-! ## Dashboard fetch helpers -/

/-- `get_weather_data` from `src/routes/dashboard.py`: a provider failure
becomes `HTTPException(400, "Error fetching weather for ...")`. -/
def get_weather_data (p : Provider) (city : String) :
    Except PyExn WeatherPayload :=
  match p.weather with
  | .ok d => .ok d
  | .error e =>
    .error (.httpExn 400 ("Error fetching weather for " ++ city ++ ": " ++ e))

/-- `get_forecast_data` from `src/routes/dashboard.py`.  The `days`
argument is accepted but never used: the request URL does not mention
it. -/
def get_forecast_data (p : Provider) (city : String) (days : ℤ := 5) :
    Except PyExn ForecastPayload :=
  match p.forecast with
  | .ok d => .ok d
  | .error e =>
    .error (.httpExn 400 ("Error fetching forecast for " ++ city ++ ": " ++ e))

/-- The synthetic air-quality payload built in `get_air_quality_data`'s
fallback branch. -/
def mockAirPayload (rng : Rng) : AirPayload :=
  { list := [{ aqi := pyRandint 20 150 (rng 0),
               components :=
                 { co := pyUniform 200 1000 (rng 1),
                   no := pyUniform 0 50 (rng 2),
                   no2 := pyUniform 10 60 (rng 3),
                   o3 := pyUniform 50 120 (rng 4),
                   so2 := pyUniform 5 30 (rng 5),
                   pm2_5 := pyUniform 10 50 (rng 6),
                   pm10 := pyUniform 20 80 (rng 7),
                   nh3 := pyUniform 0 20 (rng 8) } }] }

/-- `get_air_quality_data` from `src/routes/dashboard.py`.  The body first
calls `get_weather_data` (for the coordinates); the `HTTPException` that
call raises on failure is NOT a `requests.RequestException`, so the
`except` clause does not catch it and it propagates.  A failure of the
air-pollution request itself IS caught and replaced by synthetic data. -/
def get_air_quality_data (p : Provider) (rng : Rng) (city : String) :
    Except PyExn AirPayload :=
  match get_weather_data p city with
  | .error e => .error e
  | .ok _ =>
    match p.airPollution with
    | .ok d => .ok d
    | .error _ => .ok (mockAirPayload rng)

/-! ## Chart-data helpers -/

/-- Output of `get_temperature_data`. -/
structure TempChart where
  dates : List String
  temperatures : List ℚ
  humidity : List ℚ
  city : String
  mock : Bool := false
deriving DecidableEq, Repr

/-- Output of `get_air_quality_chart_data`. -/
structure AQChart where
  pollutants : List String
  values : List ℚ
  city : String
  mock : Bool := false
deriving DecidableEq, Repr

/-- Output of `get_weather_distribution_data`. -/
structure DistChart where
  conditions : List String
  counts : List ℤ
  city : String
  mock : Bool := false
deriving DecidableEq, Repr

/-- `get_temperature_data` from `src/routes/dashboard.py`: slice the
forecast list to `days*8` slots and project out dates, temperatures and
humidity; any failure (the blanket `except Exception`) yields synthetic
data.  The synthetic branch's `datetime.now()+i days` date strings are
stood in for by placeholder labels: no claim touches them. -/
def get_temperature_data (p : Provider) (rng : Rng) (city : String)
    (days : ℤ := 7) : TempChart :=
  match get_forecast_data p city days with
  | .ok forecast_data =>
    let items := pySliceTo (days * 8) forecast_data.list
    { dates := items.map (·.dt_txt),
      temperatures := items.map (·.main.temp),
      humidity := items.map (·.main.humidity),
      city := city }
  | .error _ =>
    { dates := (List.range 7).map (fun i => "now+" ++ toString i ++ "d"),
      temperatures := (List.range 7).map
        (fun i => pyRound1 (pyUniform 15 30 (rng (10 + i)))),
      humidity := (List.range 7).map
        (fun i => pyRound1 (pyUniform 40 80 (rng (20 + i)))),
      city := city, mock := true }

/-- The fixed pollutant label list of the chart/pie outputs. -/
def pollutantNames : List String := ["PM2.5", "PM10", "NO2", "O3", "SO2", "CO"]

/-- `get_air_quality_chart_data` from `src/routes/dashboard.py`: the six
chart values are the rounded component concentrations, with CO first
divided by 1000 (μg/m³ → mg/m³); every other pollutant is not unit-scaled.
Any failure yields synthetic data. -/
def get_air_quality_chart_data (p : Provider) (rng : Rng) (city : String) :
    AQChart :=
  match (do
      let aq ← get_air_quality_data p rng city
      let entry ← pyHead aq.list
      pure entry.components : Except PyExn Components) with
  | .ok components =>
    { pollutants := pollutantNames,
      values := [pyRound1 components.pm2_5,
                 pyRound1 components.pm10,
                 pyRound1 components.no2,
                 pyRound1 components.o3,
                 pyRound1 components.so2,
                 pyRound1 (components.co / 1000)],
      city := city }
  | .error _ =>
    { pollutants := pollutantNames,
      values := (List.range 6).map
        (fun i => pyRound1 (pyUniform 10 50 (rng (30 + i)))),
      city := city, mock := true }

/-- One step of the Python `weather_counts` dict update (dicts preserve
insertion order, so the association list does too). -/
def bumpCount (acc : List (String × ℤ)) (c : String) : List (String × ℤ) :=
  if acc.any (fun q => q.1 = c) then
    acc.map (fun q => if q.1 = c then (q.1, q.2 + 1) else q)
  else acc ++ [(c, 1)]

/-- The `item['weather'][0]['main']` projection over a forecast list,
mirroring the Python `for` loop's exception behaviour (an empty `weather`
array raises). -/
def firstConds : List FItem → Except PyExn (List String)
| [] => .ok []
| item :: rest => do
  let w ← pyHead item.weather
  let tail ← firstConds rest
  pure (w.main :: tail)

/-- `get_weather_distribution_data` from `src/routes/dashboard.py`: counts
the raw provider `main` condition strings over the WHOLE forecast list —
the `days` argument (default 30) is never used.  Any failure yields
synthetic data. -/
def get_weather_distribution_data (p : Provider) (rng : Rng) (city : String)
    (days : ℤ := 30) : DistChart :=
  match (do
      let forecast_data ← get_forecast_data p city days
      firstConds forecast_data.list : Except PyExn (List String)) with
  | .ok conds =>
    let weather_counts := conds.foldl bumpCount []
    { conditions := weather_counts.map Prod.fst,
      counts := weather_counts.map Prod.snd,
      city := city }
  | .error _ =>
    { conditions := ["Clear", "Clouds", "Rain", "Snow", "Thunderstorm"],
      counts := (List.range 5).map (fun i => pyRandint 5 15 (rng (40 + i))),
      city := city, mock := true }

/-! ## `GET /api/dashboard/data` -/

/-- The `current_weather` object of the dashboard response.  Numeric
fields keep their values; the route renders them as strings with unit
suffixes (`f"{...}°C"` etc.), and `visibility` is metres/1000 (the route
additionally formats it with one decimal). -/
structure CurrentWeather where
  city : String
  country : String
  temperature : ℚ
  feels_like : ℚ
  humidity : ℚ
  pressure : ℚ
  wind_speed : ℚ
  wind_direction : ℚ
  visibility : ℚ
  weather : String
  weather_icon : String
  uv_index : ℚ
deriving DecidableEq, Repr

/-- The `air_quality` object of the dashboard response; `components` is
the pollutant-name → rounded-concentration mapping the route builds. -/
structure AirQualityOut where
  aqi : ℤ
  category : String
  health_impact : String
  components : List (String × ℚ)
deriving DecidableEq, Repr

/-- One entry of the dashboard `forecast` array. -/
structure ForecastOut where
  datetime : String
  temperature : ℚ
  feels_like : ℚ
  humidity : ℚ
  weather : String
  weather_icon : String
  wind_speed : ℚ
  pressure : ℚ
deriving DecidableEq, Repr

/-- The `chart_data` object (present only for `data_type` in
`{"all", "charts"}`; the route otherwise leaves it as an empty dict,
modelled by `none`). -/
structure ChartData where
  temperature : TempChart
  air_quality : AQChart
  weather_distribution : DistChart
deriving DecidableEq, Repr

/-- The `summary_stats` object.  `avg_temperature` is the instantaneous
current temperature, as the source computes it. -/
structure SummaryStats where
  avg_temperature : ℚ
  humidity : ℚ
  air_quality : String
  wind_speed : ℚ
  pressure : ℚ
  visibility : ℚ
deriving DecidableEq, Repr

/-- `DashboardDataResponse` from `src/routes/dashboard.py`. -/
structure DashboardDataResponse where
  city : String
  current_weather : CurrentWeather
  summary_stats : SummaryStats
  chart_data : Option ChartData
  air_quality : AirQualityOut
  forecast : List ForecastOut
deriving DecidableEq, Repr

/-- The `forecast` list construction loop of `get_dashboard_data`,
including the exception an item with an empty `weather` array would
raise. -/
def buildForecastList : List FItem → Except PyExn (List ForecastOut)
| [] => .ok []
| item :: rest => do
  let w ← pyHead item.weather
  let tail ← buildForecastList rest
  pure (({ datetime := item.dt_txt,
           temperature := item.main.temp,
           feels_like := item.main.feels_like,
           humidity := item.main.humidity,
           weather := pyTitle w.description,
           weather_icon := w.icon,
           wind_speed := item.wind.speed,
           pressure := item.main.pressure } : ForecastOut) :: tail)

/-- The `try` block of `get_dashboard_data`, step for step. -/
def dashboardBody (p : Provider) (rng : Rng) (city : String) (days : ℤ)
    (data_type : String) : Except PyExn DashboardDataResponse := do
  let weather_data ← get_weather_data p city
  let wx0 ← pyHead weather_data.weather
  let current_weather : CurrentWeather :=
    { city := weather_data.name,
      country := weather_data.sys.country,
      temperature := weather_data.main.temp,
      feels_like := weather_data.main.feels_like,
      humidity := weather_data.main.humidity,
      pressure := weather_data.main.pressure,
      wind_speed := weather_data.wind.speed,
      wind_direction := weather_data.wind.deg.getD 0,
      visibility := weather_data.visibility.getD 0 / 1000,
      weather := pyTitle wx0.description,
      weather_icon := wx0.icon,
      uv_index := weather_data.uvi.getD 0 }
  let air_quality_data ← get_air_quality_data p rng city
  let entry ← pyHead air_quality_data.list
  let aqi := entry.aqi
  let components := entry.components
  let air_quality : AirQualityOut :=
    { aqi := aqi,
      category := get_aqi_category aqi,
      health_impact := get_aqi_health_impact aqi,
      components := [("pm2_5", pyRound1 components.pm2_5),
                     ("pm10", pyRound1 components.pm10),
                     ("no2", pyRound1 components.no2),
                     ("o3", pyRound1 components.o3),
                     ("so2", pyRound1 components.so2),
                     ("co", pyRound1 components.co)] }
  let forecast_data ← get_forecast_data p city days
  let forecast ← buildForecastList (pySliceTo (days * 8) forecast_data.list)
  let chart_data : Option ChartData :=
    if data_type = "all" || data_type = "charts" then
      some { temperature := get_temperature_data p rng city days,
             air_quality := get_air_quality_chart_data p rng city,
             weather_distribution := get_weather_distribution_data p rng city days }
    else none
  let summary_stats : SummaryStats :=
    { avg_temperature := weather_data.main.temp,
      humidity := weather_data.main.humidity,
      air_quality := get_aqi_category aqi,
      wind_speed := weather_data.wind.speed,
      pressure := weather_data.main.pressure,
      visibility := weather_data.visibility.getD 0 / 1000 }
  pure { city := city,
         current_weather := current_weather,
         summary_stats := summary_stats,
         chart_data := chart_data,
         air_quality := air_quality,
         forecast := forecast }

/-- `get_dashboard_data` (`GET /api/dashboard/data`): the blanket
`except Exception` catches EVERY exception the body raises — including the
`HTTPException(400, ...)` from `get_weather_data` — and re-raises it as
`HTTPException(500, "Error generating dashboard data: ...")`. -/
def get_dashboard_data (p : Provider) (rng : Rng) (city : String)
    (days : ℤ := 7) (data_type : String := "all") :
    Except PyExn DashboardDataResponse :=
  match dashboardBody p rng city days data_type with
  | .ok r => .ok r
  | .error e =>
    .error (.httpExn 500 ("Error generating dashboard data: " ++ e.str))

/-! ## `GET /api/dashboard/cities/search` -/

/-- A city record of the curated list / geocoding response. -/
structure CityRef where
  name : String
  country : String
  state : String
  lat : ℚ
  lon : ℚ
deriving DecidableEq, Repr

/-- The fixed curated city list of `src/routes/dashboard.py`. -/
def default_cities : List CityRef :=
  [⟨"London", "GB", "England", 515074/10000, -1278/10000⟩,
   ⟨"New York", "US", "NY", 407128/10000, -740060/10000⟩,
   ⟨"Tokyo", "JP", "Tokyo", 356762/10000, 1396503/10000⟩,
   ⟨"Paris", "FR", "Île-de-France", 488566/10000, 23522/10000⟩,
   ⟨"Sydney", "AU", "NSW", -338688/10000, 1512093/10000⟩,
   ⟨"Mumbai", "IN", "Maharashtra", 190760/10000, 728777/10000⟩,
   ⟨"São Paulo", "BR", "São Paulo", -235505/10000, -466333/10000⟩,
   ⟨"Cairo", "EG", "Cairo", 300444/10000, 312357/10000⟩,
   ⟨"Berlin", "DE", "Berlin", 525200/10000, 134050/10000⟩,
   ⟨"Beijing", "CN", "Beijing", 399042/10000, 1164074/10000⟩]

/-- Outcome of each geocoding request (`.error` models
`requests.RequestException`). -/
structure GeoProvider where
  geocode : Except String (List CityRef)

/-- Result of the search route together with whether the network provider
was contacted. -/
structure SearchOutcome where
  cities : List CityRef
  calledProvider : Bool
deriving DecidableEq, Repr

/-- The curated-list substring filter shared by the fallback branches. -/
def filterDefaultCities (query : String) (limit : ℤ) : List CityRef :=
  pySliceTo limit (default_cities.filter
    (fun c => strContains (pyLower c.name) (pyLower query)))

/-- `search_cities` (`GET /api/dashboard/cities/search`): an empty or
whitespace-only query short-circuits to the curated list without any
provider call; otherwise the geocoding endpoint is queried, falling back
to substring-filtering the curated list on failure or an empty result. -/
def search_cities (geo : GeoProvider) (query : String) (limit : ℤ := 10) :
    SearchOutcome :=
  if query = "" || pyStrip query = "" then
    { cities := pySliceTo limit default_cities, calledProvider := false }
  else
    match geo.geocode with
    | .ok data =>
      if data.isEmpty then
        { cities := filterDefaultCities query limit, calledProvider := true }
      else
        { cities := data, calledProvider := true }
    | .error _ =>
      { cities := filterDefaultCities query limit, calledProvider := true }

theorem aqiSeverityRank_get_aqi_category (v : ℤ) :
    aqiSeverityRank (get_aqi_category v) =
      if v ≤ 50 then 0 else if v ≤ 100 then 1 else if v ≤ 150 then 2
      else if v ≤ 200 then 3 else if v ≤ 300 then 4 else 5 := by
  unfold get_aqi_category
  split_ifs <;> decide

end Dashboard

namespace Weather

/-! ## `src/routes/weather.py` -/

/-- `WeatherResponse` from `src/routes/weather.py` (numeric fields keep
their values; the route renders them with unit suffixes). -/
structure WeatherResponse where
  city : String
  country : String
  weather : String
  temperature : ℚ
  humidity : ℚ
  wind_speed : ℚ
  pressure : ℚ
  visibility : ℚ
  uv_index : Option ℚ := none
deriving DecidableEq, Repr

/-- `get_current_weather` (`GET /api/weather/current/{city}`): the city is
stripped of whitespace and surrounding quotes; a too-short city raises 400
(the `HTTPException` is not caught by the two `except` clauses); a
provider failure becomes 400; the parsed payload is reshaped.  The
`except KeyError → 500` branch corresponds to payloads that fail to parse
into `WeatherPayload`, which the typed provider model rules out. -/
def get_current_weather (p : Dashboard.Provider) (city : String)
    (country_code : Option String := none) : Except PyExn WeatherResponse := do
  let city := pyStrip (pyStripSq (pyStripDq (pyStrip city)))
  if city = "" || city.length < 2 then
    throw (.httpExn 400 "City name must be at least 2 characters long")
  else
    let _location := match country_code with
      | some cc => city ++ "," ++ cc
      | none => city
    match p.weather with
    | .error e =>
      throw (.httpExn 400 ("Error fetching weather for " ++ city ++ ": " ++ e))
    | .ok data => do
      let wx0 ← pyHead data.weather
      let weather_info : WeatherResponse :=
        { city := data.name,
          country := data.sys.country,
          weather := pyTitle wx0.description,
          temperature := data.main.temp,
          humidity := data.main.humidity,
          wind_speed := data.wind.speed,
          pressure := data.main.pressure,
          visibility := data.visibility.getD 0 / 1000,
          uv_index := data.uvi }
      pure weather_info

/-- One entry of the forecast route's response list. -/
structure ForecastRouteEntry where
  datetime : String
  temperature : ℚ
  weather : String
  humidity : ℚ
  wind_speed : ℚ
deriving DecidableEq, Repr

/-- Response of `GET /api/weather/forecast/{city}`. -/
structure ForecastRouteResponse where
  city : String
  country : String
  forecast : List ForecastRouteEntry
deriving DecidableEq, Repr

/-- The forecast route's construction loop (an item with an empty
`weather` array raises, uncaught by the route's two `except` clauses). -/
def buildRouteForecast : List Dashboard.FItem →
    Except PyExn (List ForecastRouteEntry)
| [] => .ok []
| item :: rest => do
  let w ← pyHead item.weather
  let tail ← buildRouteForecast rest
  pure (({ datetime := item.dt_txt,
           temperature := item.main.temp,
           weather := pyTitle w.description,
           humidity := item.main.humidity,
           wind_speed := item.wind.speed } : ForecastRouteEntry) :: tail)

/-- `get_weather_forecast` (`GET /api/weather/forecast/{city}`): provider
failure becomes 400; the forecast list is sliced to `days*8` slots. -/
def get_weather_forecast (p : Dashboard.Provider) (city : String)
    (days : ℤ := 5) : Except PyExn ForecastRouteResponse := do
  let city := pyStripSq (pyStripDq (pyStrip city))
  match p.forecast with
  | .error e =>
    throw (.httpExn 400 ("Error fetching forecast for " ++ city ++ ": " ++ e))
  | .ok data => do
    let forecast ← buildRouteForecast (pySliceTo (days * 8) data.list)
    pure { city := data.city.name, country := data.city.country,
           forecast := forecast }

/-- A city record of the weather route's static sample list. -/
structure SampleCity where
  name : String
  country : String
  state : String
deriving DecidableEq, Repr

/-- The static sample list of `search_cities` in `src/routes/weather.py`. -/
def sample_cities : List SampleCity :=
  [⟨"London", "GB", "England"⟩,
   ⟨"New York", "US", "NY"⟩,
   ⟨"Tokyo", "JP", "Tokyo"⟩,
   ⟨"Paris", "FR", "Île-de-France"⟩,
   ⟨"Sydney", "AU", "NSW"⟩,
   ⟨"Mumbai", "IN", "Maharashtra"⟩,
   ⟨"São Paulo", "BR", "São Paulo"⟩,
   ⟨"Cairo", "EG", "Cairo"⟩,
   ⟨"Lagos", "NG", "Lagos"⟩,
   ⟨"Bangkok", "TH", "Bangkok"⟩]

/-- `search_cities` (`GET /api/weather/cities/search`): pure
case-insensitive substring filter over the static sample list, truncated
by the Python slice `[:limit]`.  The function body contains no HTTP call:
it cannot contact the provider on any input. -/
def search_cities (query : String) (limit : ℤ := 10) : List SampleCity :=
  pySliceTo limit (sample_cities.filter
    (fun c => strContains (pyLower c.name) (pyLower query)))

/-- The spec-level matching relation for the weather city search: the
query occurs case-insensitively in the city name (used for the refinement
comparison in the search claim). -/
def specCityMatch (c : SampleCity) (query : String) : Bool :=
  strContains (pyLower c.name) (pyLower query)

/-- The inline category derivation of `get_air_quality` in
`src/routes/weather.py` (four branches; the route draws its aqi from
`randint(20, 150)`, so only the first three branches are reachable). -/
def air_quality_category (aqi : ℤ) : String :=
  if aqi ≤ 50 then "Good"
  else if aqi ≤ 100 then "Moderate"
  else if aqi ≤ 150 then "Unhealthy for Sensitive Groups"
  else "Unhealthy"

end Weather

namespace Piechart

/-! ## `src/visualization/piechart.py` -/

/-- The six slice values of `create_air_quality_pie_chart`: raw component
concentrations with only CO scaled by 1/1000 (μg/m³ → mg/m³), no
rounding (the chart merely formats hover text to two decimals). -/
def airQualityPieValues (components : Dashboard.Components) : List ℚ :=
  [components.pm2_5,
   components.pm10,
   components.no2,
   components.o3,
   components.so2,
   components.co / 1000]

end Piechart

/-! ## Shared helper lemmas -/

theorem pySliceTo_of_nonneg (n : ℤ) (hn : 0 ≤ n) (xs : List α) :
    pySliceTo n xs = xs.take n.toNat := by
  unfold pySliceTo
  rw [if_pos hn]

theorem pySliceTo_subset (n : ℤ) (xs : List α) : pySliceTo n xs ⊆ xs := by
  unfold pySliceTo
  split_ifs <;> exact List.take_subset _ _

theorem strContains_empty (s : String) : strContains s "" = true := by
  unfold strContains
  cases s.data with
  | nil => rfl
  | cons c t => simp [containsSubList, List.isPrefixOf]

theorem exceptPure {ε α : Type} (a : α) :
    (pure a : Except ε α) = .ok a := rfl

theorem generate_suggested_topics_bounded (msg : String) :
    (Chatbot.generate_suggested_topics msg).length ≤ 3
    ∧ (Chatbot.generate_suggested_topics msg).Nodup := by
  simp only [Chatbot.generate_suggested_topics, pySetList]
  constructor
  · split_ifs
    · decide
    · exact List.length_take_le _ _
  · split_ifs
    · decide
    · exact (List.nodup_dedup _).sublist (List.take_sublist _ _)

theorem buildForecastList_ok (l : List Dashboard.FItem)
    (h : ∀ it ∈ l, it.weather ≠ []) :
    ∃ outs, Dashboard.buildForecastList l = .ok outs := by
  induction l with
  | nil => exact ⟨[], rfl⟩
  | cons a t ih =>
    obtain ⟨outs, houts⟩ := ih (fun it hit => h it (List.mem_cons_of_mem _ hit))
    have ha : a.weather ≠ [] := h a (List.mem_cons_self _ _)
    obtain ⟨w, ws, hw⟩ : ∃ w ws, a.weather = w :: ws := by
      cases haw : a.weather with
      | nil => exact absurd haw ha
      | cons w ws => exact ⟨w, ws, rfl⟩
    refine ⟨({ datetime := a.dt_txt, temperature := a.main.temp,
               feels_like := a.main.feels_like, humidity := a.main.humidity,
               weather := pyTitle w.description, weather_icon := w.icon,
               wind_speed := a.wind.speed, pressure := a.main.pressure } :
             Dashboard.ForecastOut) :: outs, ?_⟩
    simp [Dashboard.buildForecastList, hw, pyHead, houts, exceptBind_ok, exceptPure]

/-! ## Claim theorems -/

/-- Claim C3: `get_aqi_category` is exactly the pure 6-band threshold
function of the spec (Good ≤50, Moderate ≤100, Unhealthy for Sensitive
Groups ≤150, Unhealthy ≤200, Very Unhealthy ≤300, Hazardous >300); it maps
50 to "Good", 51 to "Moderate", 301 to "Hazardous", and its severity rank
is monotonic non-decreasing in the AQI value. -/
theorem claim_C3 :
    (∀ v : ℤ, Dashboard.get_aqi_category v = Dashboard.specAqiCategory v)
    ∧ Dashboard.get_aqi_category 50 = "Good"
    ∧ Dashboard.get_aqi_category 51 = "Moderate"
    ∧ Dashboard.get_aqi_category 301 = "Hazardous"
    ∧ (∀ v1 v2 : ℤ, v1 ≤ v2 →
        Dashboard.aqiSeverityRank (Dashboard.get_aqi_category v1) ≤
          Dashboard.aqiSeverityRank (Dashboard.get_aqi_category v2))
    ∧ (∀ v : ℤ, 20 ≤ v → v ≤ 150 →
        Weather.air_quality_category v = Dashboard.get_aqi_category v) := by
  refine ⟨fun v => rfl, by decide, by decide, by decide, ?_, ?_⟩
  · intro v1 v2 h
    rw [Dashboard.aqiSeverityRank_get_aqi_category,
      Dashboard.aqiSeverityRank_get_aqi_category]
    split_ifs <;> omega
  · intro v h1 h2
    unfold Weather.air_quality_category Dashboard.get_aqi_category
    split_ifs <;> rfl

/-- Witness for C3: the monotonicity component applied at the concrete
band boundary pair 50 ≤ 301. -/
theorem claim_C3_witness :
    Dashboard.aqiSeverityRank (Dashboard.get_aqi_category 50) ≤
      Dashboard.aqiSeverityRank (Dashboard.get_aqi_category 301) :=
  claim_C3.2.2.2.2.1 50 301 (by decide)

/-- Claim C6: a user message whose lowercased text contains none of the
nine keywords of the keyword→topics table makes
`generate_suggested_topics` return exactly the fixed default triple
Greenhouse Effect, Renewable Energy, Sustainable Living. -/
theorem claim_C6 (msg : String)
    (h : ∀ kv ∈ Chatbot.topic_keywords,
      strContains (pyLower msg) kv.1 = false) :
    Chatbot.generate_suggested_topics msg =
      ["Greenhouse Effect", "Renewable Energy", "Sustainable Living"] := by
  have hfil : Chatbot.topic_keywords.filter
      (fun kv => strContains (pyLower msg) kv.1) = [] := by
    rw [List.filter_eq_nil_iff]
    intro kv hkv
    simp [h kv hkv]
  simp [Chatbot.generate_suggested_topics, hfil, pySetList]

/-- Witness for C6: the message "hello" matches no keyword and gets the
default triple. -/
theorem claim_C6_witness :
    (∀ kv ∈ Chatbot.topic_keywords,
      strContains (pyLower "hello") kv.1 = false)
    ∧ Chatbot.generate_suggested_topics "hello" =
        ["Greenhouse Effect", "Renewable Energy", "Sustainable Living"] :=
  ⟨by decide, claim_C6 "hello" (by decide)⟩

/-- Claim C9: the weather-condition histogram is independent of the
caller-supplied `days` parameter — `get_weather_distribution_data` gives
identical output for any two `days` values over the same provider
state (its request and its counting loop never consult `days`). -/
theorem claim_C9 (p : Dashboard.Provider) (rng : Rng) (city : String)
    (d1 d2 : ℤ) :
    Dashboard.get_weather_distribution_data p rng city d1 =
      Dashboard.get_weather_distribution_data p rng city d2 := rfl

/-- Claim C10: the weather-route city search is a pure case-insensitive
substring filter of its static 10-entry sample list truncated to the
first `limit` matches (it performs no provider call: `search_cities` is a
function of the query and limit alone), and the empty query matches all
10 cities. -/
theorem claim_C10 :
    (∀ (query : String) (limit : ℤ), 0 ≤ limit →
      Weather.search_cities query limit =
        (Weather.sample_cities.filter
          (fun c => Weather.specCityMatch c query)).take limit.toNat)
    ∧ (∀ limit : ℤ, 0 ≤ limit →
      Weather.search_cities "" limit = Weather.sample_cities.take limit.toNat)
    ∧ Weather.sample_cities.length = 10 := by
  have hbase : ∀ (query : String) (limit : ℤ), 0 ≤ limit →
      Weather.search_cities query limit =
        (Weather.sample_cities.filter
          (fun c => Weather.specCityMatch c query)).take limit.toNat := by
    intro q l hl
    unfold Weather.search_cities Weather.specCityMatch
    exact pySliceTo_of_nonneg _ hl _
  refine ⟨hbase, ?_, rfl⟩
  intro l hl
  have hall : ∀ c ∈ Weather.sample_cities,
      (Weather.specCityMatch c "") = true := by
    intro c _
    unfold Weather.specCityMatch
    exact strContains_empty _
  rw [hbase "" l hl, List.filter_eq_self.mpr hall]

/-- Witness for C10: searching "Lon" with limit 5 returns exactly the
London entry. -/
theorem claim_C10_witness :
    Weather.search_cities "Lon" 5 = [⟨"London", "GB", "England"⟩] := by
  rw [claim_C10.1 "Lon" 5 (by decide)]
  decide

/-- Counterexample to C2 as stated: with an initialized client whose
backend call fails at request time (backend unreachable), the chat
endpoint does NOT return the canned fallback — the blanket
`except Exception` re-raises the failure as HTTP 500, a 5xx surfaced to
the client. -/
theorem claim_C2_counterexample :
    Chatbot.chat_with_tutor (.ready (.error "connection refused"))
        { user_message := "What is climate change?" } =
      .error (.httpExn 500
        "Error processing chat request: connection refused") := rfl

/-- Claim C2 as amended: the canned fallback ChatReply with the fixed
3-topic suggestion set is returned (with no 5xx) exactly when the
language-model client failed to initialize (`client is None`); when an
initialized backend errors or is unreachable at request time, the
endpoint instead surfaces HTTP 500. -/
theorem claim_C2_amended_thm :
    (∀ req : Chatbot.ChatRequest,
      Chatbot.chat_with_tutor .clientNone req =
        .ok { reply := Chatbot.fallbackReply req.user_message,
              suggested_topics :=
                ["Greenhouse Effect", "Carbon Footprint", "Climate vs Weather"] })
    ∧ (∀ (req : Chatbot.ChatRequest) (e : String),
      Chatbot.chat_with_tutor (.ready (.error e)) req =
        .error (.httpExn 500 ("Error processing chat request: " ++ e))) :=
  ⟨fun _ => rfl, fun _ _ => rfl⟩

/-- Counterexample to C5 as stated: `chat()` does raise to the caller —
an initialized client whose completion call times out makes the endpoint
raise HTTP 500 rather than return a ChatReply. -/
theorem claim_C5_counterexample :
    Chatbot.chat_with_tutor (.ready (.error "Read timed out"))
        { user_message := "hello" } =
      .error (.httpExn 500 "Error processing chat request: Read timed out") := rfl

/-- Claim C5 as amended: whenever the chat endpoint does return a
ChatReply (uninitialized client, or a successful backend call), the
`suggested_topics` list has length at most 3 and no duplicate entries;
the no-raise part of the original claim fails when an initialized
backend errors at request time. -/
theorem claim_C5_amended_thm (client : Chatbot.LLMClient)
    (req : Chatbot.ChatRequest) (resp : Chatbot.ChatResponse)
    (h : Chatbot.chat_with_tutor client req = .ok resp) :
    resp.suggested_topics.length ≤ 3 ∧ resp.suggested_topics.Nodup := by
  cases client with
  | clientNone =>
    cases h
    refine ⟨?_, ?_⟩
    · show (["Greenhouse Effect", "Carbon Footprint", "Climate vs Weather"] :
        List String).length ≤ 3
      decide
    · show (["Greenhouse Effect", "Carbon Footprint", "Climate vs Weather"] :
        List String).Nodup
      decide
  | ready result =>
    cases result with
    | ok reply =>
      cases h
      show (Chatbot.generate_suggested_topics req.user_message).length ≤ 3
        ∧ (Chatbot.generate_suggested_topics req.user_message).Nodup
      exact generate_suggested_topics_bounded req.user_message
    | error e => cases h

/-- Witness for the amended C5: the fallback reply for "hello" under an
uninitialized client carries 3 duplicate-free topics. -/
theorem claim_C5_witness :
    (["Greenhouse Effect", "Carbon Footprint", "Climate vs Weather"] :
      List String).length ≤ 3
    ∧ (["Greenhouse Effect", "Carbon Footprint", "Climate vs Weather"] :
      List String).Nodup :=
  claim_C5_amended_thm .clientNone { user_message := "hello" }
    { reply := Chatbot.fallbackReply "hello",
      suggested_topics :=
        ["Greenhouse Effect", "Carbon Footprint", "Climate vs Weather"] } rfl

/-- Claim C7: the dashboard city search called with an empty or
whitespace-only query returns the fixed 10-city curated list truncated to
the first `limit` entries and never contacts the geocoding provider (the
outcome is independent of the provider state and its `calledProvider`
flag is false). -/
theorem claim_C7 (geo : Dashboard.GeoProvider) (query : String) (limit : ℤ)
    (hq : query = "" ∨ pyStrip query = "") (hl : 0 ≤ limit) :
    Dashboard.search_cities geo query limit =
      { cities := Dashboard.default_cities.take limit.toNat,
        calledProvider := false } := by
  have hcond : (query = "" || pyStrip query = "") = true := by
    rcases hq with h | h <;> simp [h]
  unfold Dashboard.search_cities
  rw [if_pos hcond, pySliceTo_of_nonneg _ hl]

/-- Witness for C7: a whitespace-only query with limit 10 against a dead
provider returns the full curated list without a provider call. -/
theorem claim_C7_witness :
    Dashboard.search_cities ⟨.error "provider down"⟩ "   " 10 =
      { cities := Dashboard.default_cities.take (10 : ℤ).toNat,
        calledProvider := false } :=
  claim_C7 ⟨.error "provider down"⟩ "   " 10 (Or.inr (by decide)) (by decide)

/-- Claim C8: in the chart/pie pollutant breakdowns the CO concentration
is divided by 1000 (μg/m³ → mg/m³) — with the dashboard chart data
additionally rounding every slice to one decimal, and the pie chart
passing raw values — while the other five pollutants are never
unit-scaled; a provider CO value of 12000 renders as 12.0 in both. -/
theorem claim_C8 (p : Dashboard.Provider) (rng : Rng) (city : String)
    (w : Dashboard.WeatherPayload) (ap : Dashboard.AirPayload)
    (entry : Dashboard.AirEntry) (rest : List Dashboard.AirEntry)
    (hw : p.weather = .ok w) (ha : p.airPollution = .ok ap)
    (hl : ap.list = entry :: rest) :
    (Dashboard.get_air_quality_chart_data p rng city).values =
      [pyRound1 entry.components.pm2_5, pyRound1 entry.components.pm10,
       pyRound1 entry.components.no2, pyRound1 entry.components.o3,
       pyRound1 entry.components.so2, pyRound1 (entry.components.co / 1000)]
    ∧ (entry.components.co = 12000 →
        (Dashboard.get_air_quality_chart_data p rng city).values.getLast? =
          some 12)
    ∧ Piechart.airQualityPieValues entry.components =
        [entry.components.pm2_5, entry.components.pm10, entry.components.no2,
         entry.components.o3, entry.components.so2, entry.components.co / 1000]
    ∧ (entry.components.co = 12000 →
        (Piechart.airQualityPieValues entry.components).getLast? = some 12) := by
  have hv : (Dashboard.get_air_quality_chart_data p rng city).values =
      [pyRound1 entry.components.pm2_5, pyRound1 entry.components.pm10,
       pyRound1 entry.components.no2, pyRound1 entry.components.o3,
       pyRound1 entry.components.so2, pyRound1 (entry.components.co / 1000)] := by
    simp [Dashboard.get_air_quality_chart_data, Dashboard.get_air_quality_data,
      Dashboard.get_weather_data, hw, ha, hl, pyHead, exceptBind_ok, exceptPure]
  refine ⟨hv, ?_, rfl, ?_⟩
  · intro hco
    rw [hv, hco]
    simp only [List.getLast?]
    norm_num [pyRound1, roundHalfEven]
  · intro hco
    simp only [Piechart.airQualityPieValues, hco, List.getLast?]
    norm_num

/-- A concrete current-weather payload used by the concrete-input
theorems. -/
def wpLondon : Dashboard.WeatherPayload :=
  { coord := ⟨515/10, -1/10⟩,
    name := "London",
    sys := ⟨"GB"⟩,
    main := ⟨18, 17, 60, 1012⟩,
    wind := ⟨5, some 200⟩,
    visibility := some 10000,
    weather := [⟨"Clouds", "overcast clouds", "04d"⟩],
    uvi := none }

/-- A concrete air-pollution payload whose CO component is 12000 μg/m³. -/
def apCO12000 : Dashboard.AirPayload :=
  ⟨[{ aqi := 42,
      components :=
        { co := 12000, no := 1, no2 := 20, o3 := 80, so2 := 10,
          pm2_5 := 12, pm10 := 30, nh3 := 2 } }]⟩

/-- Provider state for the C8 witness: weather and air pollution succeed,
the forecast endpoint is irrelevant to the air-quality chart. -/
def pC8 : Dashboard.Provider :=
  ⟨.ok wpLondon, .ok apCO12000, .error "unused"⟩

/-- A fixed entropy stream for concrete-input theorems. -/
def rng0 : Rng := fun _ => 0

/-- Witness for C8: with a provider CO reading of 12000 μg/m³ the CO
slice of the dashboard air-quality chart is exactly 12.0 mg/m³. -/
theorem claim_C8_witness :
    (Dashboard.get_air_quality_chart_data pC8 rng0 "London").values.getLast? =
      some 12 :=
  (claim_C8 pC8 rng0 "London" wpLondon apCO12000
    { aqi := 42,
      components :=
        { co := 12000, no := 1, no2 := 20, o3 := 80, so2 := 10,
          pm2_5 := 12, pm10 := 30, nh3 := 2 } } [] rfl rfl rfl).2.1 rfl

/-- The `air_quality` object `get_dashboard_data` produces when the
air-pollution fetch fails and the synthetic payload is used. -/
def mockAirQualityOut (rng : Rng) : Dashboard.AirQualityOut :=
  { aqi := pyRandint 20 150 (rng 0),
    category := Dashboard.get_aqi_category (pyRandint 20 150 (rng 0)),
    health_impact := Dashboard.get_aqi_health_impact (pyRandint 20 150 (rng 0)),
    components := [("pm2_5", pyRound1 (pyUniform 10 50 (rng 6))),
                   ("pm10", pyRound1 (pyUniform 20 80 (rng 7))),
                   ("no2", pyRound1 (pyUniform 10 60 (rng 3))),
                   ("o3", pyRound1 (pyUniform 50 120 (rng 4))),
                   ("so2", pyRound1 (pyUniform 5 30 (rng 5))),
                   ("co", pyRound1 (pyUniform 200 1000 (rng 1)))] }

/-- The full dashboard response in the scenario where only the
air-quality fetch fails (weather and forecast succeed). -/
def airfailResp (p : Dashboard.Provider) (rng : Rng) (city : String)
    (days : ℤ) (data_type : String) (w : Dashboard.WeatherPayload)
    (wx0 : Dashboard.Wx) (fl : List Dashboard.ForecastOut) :
    Dashboard.DashboardDataResponse :=
  { city := city,
    current_weather :=
      { city := w.name, country := w.sys.country,
        temperature := w.main.temp, feels_like := w.main.feels_like,
        humidity := w.main.humidity, pressure := w.main.pressure,
        wind_speed := w.wind.speed, wind_direction := w.wind.deg.getD 0,
        visibility := w.visibility.getD 0 / 1000,
        weather := pyTitle wx0.description, weather_icon := wx0.icon,
        uv_index := w.uvi.getD 0 },
    summary_stats :=
      { avg_temperature := w.main.temp, humidity := w.main.humidity,
        air_quality := Dashboard.get_aqi_category (pyRandint 20 150 (rng 0)),
        wind_speed := w.wind.speed, pressure := w.main.pressure,
        visibility := w.visibility.getD 0 / 1000 },
    chart_data :=
      if data_type = "all" || data_type = "charts" then
        some { temperature := Dashboard.get_temperature_data p rng city days,
               air_quality := Dashboard.get_air_quality_chart_data p rng city,
               weather_distribution :=
                 Dashboard.get_weather_distribution_data p rng city days }
      else none,
    air_quality := mockAirQualityOut rng,
    forecast := fl }

theorem dashboardBody_airfail (p : Dashboard.Provider) (rng : Rng)
    (city : String) (days : ℤ) (data_type : String)
    (w : Dashboard.WeatherPayload) (wx0 : Dashboard.Wx)
    (wxs : List Dashboard.Wx) (fp : Dashboard.ForecastPayload)
    (emsg : String) (fl : List Dashboard.ForecastOut)
    (hw : p.weather = .ok w) (hwx : w.weather = wx0 :: wxs)
    (hf : p.forecast = .ok fp) (ha : p.airPollution = .error emsg)
    (hfl : Dashboard.buildForecastList (pySliceTo (days * 8) fp.list) = .ok fl) :
    Dashboard.dashboardBody p rng city days data_type =
      .ok (airfailResp p rng city days data_type w wx0 fl) := by
  simp [Dashboard.dashboardBody, Dashboard.get_weather_data,
    Dashboard.get_air_quality_data, Dashboard.get_forecast_data,
    Dashboard.mockAirPayload, airfailResp, mockAirQualityOut,
    hw, hwx, hf, ha, hfl, pyHead, exceptBind_ok, exceptPure]

/-- Claim C1: if the mandatory current-weather fetch fails with a
provider error, `get_dashboard_data` fails as a whole and returns no
bundle; if only the air-quality fetch fails (weather and a well-formed
forecast succeed), a complete bundle is still returned whose
`air_quality` is present and internally consistent — aqi within [0, 500]
and the six-pollutant components mapping present — with no top-level
failure. -/
theorem claim_C1 (p : Dashboard.Provider) (rng : Rng) (city : String)
    (days : ℤ) (data_type : String) :
    ((∃ msg, p.weather = .error msg) →
      ∃ e, Dashboard.get_dashboard_data p rng city days data_type = .error e)
    ∧ (∀ (w : Dashboard.WeatherPayload) (fp : Dashboard.ForecastPayload)
        (emsg : String),
        p.weather = .ok w → w.weather ≠ [] →
        p.forecast = .ok fp → (∀ it ∈ fp.list, it.weather ≠ []) →
        p.airPollution = .error emsg →
        ∃ resp,
          Dashboard.get_dashboard_data p rng city days data_type = .ok resp
          ∧ 0 ≤ resp.air_quality.aqi ∧ resp.air_quality.aqi ≤ 500
          ∧ resp.air_quality.components.map Prod.fst =
              ["pm2_5", "pm10", "no2", "o3", "so2", "co"]) := by
  constructor
  · rintro ⟨msg, hmsg⟩
    refine ⟨.httpExn 500 ("Error generating dashboard data: " ++
      ("Error fetching weather for " ++ city ++ ": " ++ msg)), ?_⟩
    simp [Dashboard.get_dashboard_data, Dashboard.dashboardBody,
      Dashboard.get_weather_data, hmsg, exceptBind_err, PyExn.str]
  · intro w fp emsg hw hwx hf hall ha
    obtain ⟨wx0, wxs, hwx0⟩ : ∃ a l, w.weather = a :: l := by
      cases hweather : w.weather with
      | nil => exact absurd hweather hwx
      | cons a l => exact ⟨a, l, rfl⟩
    obtain ⟨fl, hfl⟩ := buildForecastList_ok _
      (fun it hit => hall it (pySliceTo_subset _ _ hit))
    have hbody := dashboardBody_airfail p rng city days data_type
      w wx0 wxs fp emsg fl hw hwx0 hf ha hfl
    refine ⟨airfailResp p rng city days data_type w wx0 fl, ?_, ?_, ?_, ?_⟩
    · simp [Dashboard.get_dashboard_data, hbody]
    · have hb := pyRandint_mem 20 150 (rng 0) (by norm_num)
      simp only [airfailResp, mockAirQualityOut]
      omega
    · have hb := pyRandint_mem 20 150 (rng 0) (by norm_num)
      simp only [airfailResp, mockAirQualityOut]
      omega
    · simp [airfailResp, mockAirQualityOut]

/-- A concrete one-slot forecast payload with a well-formed weather
array. -/
def fpLondon : Dashboard.ForecastPayload :=
  ⟨⟨"London", "GB"⟩,
   [{ dt_txt := "2026-10-12 12:00:00",
      main := ⟨18, 17, 60, 1012⟩,
      weather := [⟨"Clouds", "scattered clouds", "03d"⟩],
      wind := ⟨4, none⟩ }]⟩

/-- Provider state for the C1 witness: weather and forecast succeed, the
air-pollution endpoint is down. -/
def pC1 : Dashboard.Provider :=
  ⟨.ok wpLondon, .error "air pollution api down", .ok fpLondon⟩

/-- Witness for C1: with only the air-quality fetch failing, the concrete
dashboard request returns a complete bundle with consistent synthetic air
quality. -/
theorem claim_C1_witness :
    ∃ resp,
      Dashboard.get_dashboard_data pC1 rng0 "London" 7 "all" = .ok resp
      ∧ 0 ≤ resp.air_quality.aqi ∧ resp.air_quality.aqi ≤ 500
      ∧ resp.air_quality.components.map Prod.fst =
          ["pm2_5", "pm10", "no2", "o3", "so2", "co"] :=
  (claim_C1 pC1 rng0 "London" 7 "all").2 wpLondon fpLondon
    "air pollution api down" rfl (by decide) rfl (by decide) rfl

/-- Provider state in which every outbound request fails with a network
error. -/
def pDown : Dashboard.Provider :=
  ⟨.error "connection refused", .error "connection refused",
   .error "connection refused"⟩

/-- Claim C4 evaluated at a failing input: the weather routes surface a
provider failure as HTTP 400 as claimed, but the dashboard-bundle route
does not — its blanket `except Exception` catches the
`HTTPException(400)` raised by its own weather helper and re-raises the
provider failure as HTTP 500. -/
theorem claim_C4_code_eval :
    Weather.get_current_weather pDown "London" none =
      .error (.httpExn 400
        "Error fetching weather for London: connection refused")
    ∧ Weather.get_weather_forecast pDown "London" 5 =
      .error (.httpExn 400
        "Error fetching forecast for London: connection refused")
    ∧ Dashboard.get_dashboard_data pDown rng0 "London" 7 "all" =
      .error (.httpExn 500
        "Error generating dashboard data: Error fetching weather for London: connection refused") :=
  ⟨rfl, rfl, rfl⟩
